import Mathlib

/-!
Shallow embedding of the `lame-rs` wrapper (`src/lib.rs`), a safe interface
over the LAME encoder backend.  The backend (`lame_sys`) is opaque native
code; every backend entry point is modelled as a function parameter, so the
theorems quantify over all possible backend behaviours.  Raw pointers are
modelled as natural numbers with `0` playing the role of the null pointer,
`c_int` as `Int`, Rust panics as an explicit `PanicOr` outcome, and fallible
results as `Except`.
-/

namespace LameRs

/-- The largest value of the C `int` type (32-bit signed), as a natural
number; mirrors `c_int::max_value() as usize` in the source. -/
def cIntMaxNat : Nat := 2147483647

/-- Outcome of a Rust function that may panic: either a panic carrying the
panic message, or a normal value. -/
inductive PanicOr (α : Type) where
  | panic (msg : String)
  | value (a : α)
deriving DecidableEq

/-- The lifecycle/configuration error enum `Error` from `src/lib.rs`. -/
inductive Error where
  | Ok
  | GenericError
  | NoMem
  | BadBitRate
  | BadSampleFreq
  | InternalError
  | Unknown (code : Int)
deriving DecidableEq

/-- `impl From<c_int> for Error` from `src/lib.rs`: the match over the raw
status code. -/
def Error.fromCInt (errcode : Int) : Error :=
  if errcode = 0 then Error.Ok
  else if errcode = -1 then Error.GenericError
  else if errcode = -10 then Error.NoMem
  else if errcode = -11 then Error.BadBitRate
  else if errcode = -12 then Error.BadSampleFreq
  else if errcode = -13 then Error.InternalError
  else Error.Unknown errcode

/-- `handle_simple_error` from `src/lib.rs`: converts the raw status code via
`Error.fromCInt` and returns `ok` exactly on the `Ok` variant. -/
def handle_simple_error (retn : Int) : Except Error Unit :=
  match Error.fromCInt retn with
  | Error.Ok => Except.ok ()
  | err => Except.error err

/-- Panic message of `int_size` (the source's format placeholder is left
unfilled, exactly as in the code). -/
def intOverflowMsg : String := "converting \x7b\x7d to c_int would overflow"

/-- `int_size` from `src/lib.rs`: converts a `usize` length to `c_int`,
panicking (modelled as `none`) when the length exceeds `c_int::MAX`. -/
def int_size (sz : Nat) : Option Int :=
  if sz > cIntMaxNat then none
  else some (sz : Int)

/-- The encode error enum `EncodeError` from `src/lib.rs`. -/
inductive EncodeError where
  | OutputBufferTooSmall
  | NoMem
  | InitParamsNotCalled
  | PsychoAcousticError
  | Unknown (code : Int)
deriving DecidableEq

/-- The match over `retn` at the end of `Lame::encode` in `src/lib.rs`:
maps the backend's return code to either an `EncodeError` or a byte count. -/
def encode_retn_result (retn : Int) : Except EncodeError Nat :=
  if retn = -1 then Except.error EncodeError.OutputBufferTooSmall
  else if retn = -2 then Except.error EncodeError.NoMem
  else if retn = -3 then Except.error EncodeError.InitParamsNotCalled
  else if retn = -4 then Except.error EncodeError.PsychoAcousticError
  else if retn < 0 then Except.error (EncodeError.Unknown retn)
  else Except.ok retn.toNat

/-- The `Lame` context struct from `src/lib.rs`: its only field is the raw
backend handle (`*mut lame_global_flags`, modelled as `Nat`, `0` = null). -/
structure Lame where
  ptr : Nat
deriving DecidableEq

/-- `Lame::new` from `src/lib.rs`, as a function of the handle value
returned by the backend's `lame_init`: `none` exactly when the backend
returned the null pointer. -/
def Lame.new (ctx : Nat) : Option Lame :=
  if ctx = 0 then none else some ⟨ctx⟩

/-- The Rust cast `u8 as c_int` (value-preserving, since every `u8` value
fits in `c_int`). -/
def u8_as_cint (x : Fin 256) : Int := (x.val : Int)

/-- The Rust cast `u32 as c_int`: two's-complement wrap of the 32-bit
pattern into the signed range. -/
def u32_as_cint (x : Fin 4294967296) : Int :=
  if x.val < 2147483648 then (x.val : Int) else (x.val : Int) - 4294967296

/-- The Rust cast `i32 as c_int` (identity, both being 32-bit signed). -/
def i32_as_cint (x : Int) : Int := x

/-- The Rust cast `c_int as u32`: reinterpret the 32-bit pattern as
unsigned, i.e. reduce modulo `2^32`. -/
def cint_as_u32 (x : Int) : Nat := (x % 4294967296).toNat

/-- The Rust cast `c_int as u8`: truncate the 32-bit pattern to its low
byte. -/
def cint_as_u8 (x : Int) : Nat := (x % 4294967296).toNat % 256

/-- `Lame::sample_rate` from `src/lib.rs`, with the backend getter
`lame_get_in_samplerate` passed in as a function of the handle. -/
def Lame.sample_rate (get_fn : Nat → Int) (l : Lame) : Nat :=
  cint_as_u32 (get_fn l.ptr)

/-- `Lame::set_sample_rate` from `src/lib.rs`, with the backend setter
`lame_set_in_samplerate` passed in; the second component is the wrapper
state after the call (`&mut self` in the source, whose only field the
method never writes). -/
def Lame.set_sample_rate (set_fn : Nat → Int → Int) (l : Lame)
    (sample_rate : Fin 4294967296) : Except Error Unit × Lame :=
  (handle_simple_error (set_fn l.ptr (u32_as_cint sample_rate)), l)

/-- `Lame::channels` from `src/lib.rs` (`lame_get_num_channels` passed in). -/
def Lame.channels (get_fn : Nat → Int) (l : Lame) : Nat :=
  cint_as_u8 (get_fn l.ptr)

/-- `Lame::set_channels` from `src/lib.rs` (`lame_set_num_channels`
passed in). -/
def Lame.set_channels (set_fn : Nat → Int → Int) (l : Lame)
    (channels : Fin 256) : Except Error Unit × Lame :=
  (handle_simple_error (set_fn l.ptr (u8_as_cint channels)), l)

/-- `Lame::quality` from `src/lib.rs` (`lame_get_quality` passed in). -/
def Lame.quality (get_fn : Nat → Int) (l : Lame) : Nat :=
  cint_as_u8 (get_fn l.ptr)

/-- `Lame::set_quality` from `src/lib.rs` (`lame_set_quality` passed in). -/
def Lame.set_quality (set_fn : Nat → Int → Int) (l : Lame)
    (quality : Fin 256) : Except Error Unit × Lame :=
  (handle_simple_error (set_fn l.ptr (u8_as_cint quality)), l)

/-- `Lame::kilobitrate` from `src/lib.rs` (`lame_get_brate` passed in;
the `as i32` cast is the identity). -/
def Lame.kilobitrate (get_fn : Nat → Int) (l : Lame) : Int :=
  get_fn l.ptr

/-- `Lame::set_kilobitrate` from `src/lib.rs` (`lame_set_brate` passed in;
the parameter is named `quality` in the source). -/
def Lame.set_kilobitrate (set_fn : Nat → Int → Int) (l : Lame)
    (quality : Int) : Except Error Unit × Lame :=
  (handle_simple_error (set_fn l.ptr (i32_as_cint quality)), l)

/-- `Lame::init_params` from `src/lib.rs` (`lame_init_params` passed in). -/
def Lame.init_params (commit_fn : Nat → Int) (l : Lame) :
    Except Error Unit × Lame :=
  (handle_simple_error (commit_fn l.ptr), l)

/-- Panic message of the length check at the top of `Lame::encode`. -/
def lengthMismatchMsg : String :=
  "left and right channels must have same number of samples!"

/-- `Lame::encode` from `src/lib.rs`.  The backend `lame_encode_buffer` is
passed in as a function of the handle, the two sample buffers, the sample
count and the output capacity (the C arguments, with pointers replaced by
the buffers they point to).  Panics are explicit: the length-mismatch check
comes first, then the two `int_size` conversions in argument order, then
the status-code match. -/
def Lame.encode (enc_fn : Nat → List Int → List Int → Int → Int → Int)
    (l : Lame) (pcm_left pcm_right : List Int) (mp3_buffer : List Nat) :
    PanicOr (Except EncodeError Nat) :=
  if pcm_left.length ≠ pcm_right.length then
    PanicOr.panic lengthMismatchMsg
  else
    match int_size pcm_left.length with
    | none => PanicOr.panic intOverflowMsg
    | some n =>
      match int_size mp3_buffer.length with
      | none => PanicOr.panic intOverflowMsg
      | some cap =>
        PanicOr.value (encode_retn_result (enc_fn l.ptr pcm_left pcm_right n cap))

/-- `impl Drop for Lame` from `src/lib.rs`: the body calls the backend
`lame_close` on the handle and discards its result.  The model returns the
unit result the caller sees together with the trace of handles passed to
`lame_close` during the call. -/
def Lame.drop (_close_fn : Nat → Int) (l : Lame) : Unit × List Nat :=
  ((), [l.ptr])

/-! ### Helper lemmas -/

/-- The lifecycle mapper yields `Ok` exactly on status code 0. -/
theorem fromCInt_eq_ok_iff (c : Int) : Error.fromCInt c = Error.Ok ↔ c = 0 := by
  unfold Error.fromCInt
  constructor
  · intro h
    by_contra hc
    rw [if_neg hc] at h
    split at h <;> try exact Error.noConfusion h
    split at h <;> try exact Error.noConfusion h
    split at h <;> try exact Error.noConfusion h
    split at h <;> try exact Error.noConfusion h
    split at h <;> exact Error.noConfusion h
  · intro h
    rw [if_pos h]

/-- Closed form of `handle_simple_error`. -/
theorem handle_simple_error_eq (retn : Int) :
    handle_simple_error retn =
      if retn = 0 then Except.ok () else Except.error (Error.fromCInt retn) := by
  by_cases h : retn = 0
  · subst h
    rfl
  · rw [if_neg h]
    have hok : Error.fromCInt retn ≠ Error.Ok := fun hc => h ((fromCInt_eq_ok_iff retn).mp hc)
    unfold handle_simple_error
    cases he : Error.fromCInt retn with
    | Ok => exact absurd he hok
    | GenericError => rfl
    | NoMem => rfl
    | BadBitRate => rfl
    | BadSampleFreq => rfl
    | InternalError => rfl
    | Unknown code => rfl

/-- `int_size` succeeds, returning the length unchanged, on lengths within
the `c_int` domain. -/
theorem int_size_of_le (sz : Nat) (h : sz ≤ cIntMaxNat) :
    int_size sz = some (sz : Int) := by
  unfold int_size
  rw [if_neg (by omega)]

/-- `int_size` panics on lengths above the `c_int` domain. -/
theorem int_size_of_gt (sz : Nat) (h : cIntMaxNat < sz) : int_size sz = none := by
  unfold int_size
  rw [if_pos (by omega)]

/-! ### Claim theorems -/

/-- C2: the lifecycle/configuration error mapper is total on `c_int` (it is
a total Lean function with no panic outcome) and maps 0 to `Ok`, -1 to
`GenericError`, -10 to `NoMem`, -11 to `BadBitRate`, -12 to
`BadSampleFreq`, -13 to `InternalError`, and every other value to
`Unknown` carrying that exact value. -/
theorem C2_lifecycle_mapper_total : ∀ c : Int,
    (c = 0 → Error.fromCInt c = Error.Ok) ∧
    (c = -1 → Error.fromCInt c = Error.GenericError) ∧
    (c = -10 → Error.fromCInt c = Error.NoMem) ∧
    (c = -11 → Error.fromCInt c = Error.BadBitRate) ∧
    (c = -12 → Error.fromCInt c = Error.BadSampleFreq) ∧
    (c = -13 → Error.fromCInt c = Error.InternalError) ∧
    (c ≠ 0 → c ≠ -1 → c ≠ -10 → c ≠ -11 → c ≠ -12 → c ≠ -13 →
      Error.fromCInt c = Error.Unknown c) := by
  intro c
  refine ⟨?_, ?_, ?_, ?_, ?_, ?_, ?_⟩
  · rintro rfl; rfl
  · rintro rfl; rfl
  · rintro rfl; rfl
  · rintro rfl; rfl
  · rintro rfl; rfl
  · rintro rfl; rfl
  · intro h0 h1 h10 h11 h12 h13
    unfold Error.fromCInt
    rw [if_neg h0, if_neg h1, if_neg h10, if_neg h11, if_neg h12, if_neg h13]

/-- Witness for C2 at the concrete codes 0, -11 and the undocumented -7. -/
theorem C2_lifecycle_mapper_total_witness :
    Error.fromCInt 0 = Error.Ok ∧
    Error.fromCInt (-11) = Error.BadBitRate ∧
    Error.fromCInt (-7) = Error.Unknown (-7) :=
  ⟨(C2_lifecycle_mapper_total 0).1 rfl,
   (C2_lifecycle_mapper_total (-11)).2.2.2.1 rfl,
   (C2_lifecycle_mapper_total (-7)).2.2.2.2.2.2 (by decide) (by decide)
     (by decide) (by decide) (by decide) (by decide)⟩

/-- C3: every lifecycle/configuration operation (`set_sample_rate`,
`set_channels`, `set_quality`, `set_kilobitrate`, `init_params`) returns
success exactly when the backend status code is 0, and otherwise the error
produced by the lifecycle mapper for that code: each operation is
`handle_simple_error` applied to the backend's return value, and
`handle_simple_error` is `ok` iff the code is 0 and `error (fromCInt code)`
otherwise. -/
theorem C3_lifecycle_ops_success_iff_zero :
    (∀ retn : Int,
      (handle_simple_error retn = Except.ok () ↔ retn = 0) ∧
      (retn ≠ 0 →
        handle_simple_error retn = Except.error (Error.fromCInt retn))) ∧
    (∀ (set_fn : Nat → Int → Int) (l : Lame) (x : Fin 4294967296),
      Lame.set_sample_rate set_fn l x =
        (handle_simple_error (set_fn l.ptr (u32_as_cint x)), l)) ∧
    (∀ (set_fn : Nat → Int → Int) (l : Lame) (x : Fin 256),
      Lame.set_channels set_fn l x =
        (handle_simple_error (set_fn l.ptr (u8_as_cint x)), l)) ∧
    (∀ (set_fn : Nat → Int → Int) (l : Lame) (x : Fin 256),
      Lame.set_quality set_fn l x =
        (handle_simple_error (set_fn l.ptr (u8_as_cint x)), l)) ∧
    (∀ (set_fn : Nat → Int → Int) (l : Lame) (x : Int),
      Lame.set_kilobitrate set_fn l x =
        (handle_simple_error (set_fn l.ptr (i32_as_cint x)), l)) ∧
    (∀ (commit_fn : Nat → Int) (l : Lame),
      Lame.init_params commit_fn l =
        (handle_simple_error (commit_fn l.ptr), l)) := by
  refine ⟨?_, fun _ _ _ => rfl, fun _ _ _ => rfl, fun _ _ _ => rfl,
    fun _ _ _ => rfl, fun _ _ => rfl⟩
  intro retn
  constructor
  · rw [handle_simple_error_eq]
    constructor
    · intro h
      by_contra hc
      rw [if_neg hc] at h
      exact Except.noConfusion h
    · rintro rfl
      rw [if_pos rfl]
  · intro h
    rw [handle_simple_error_eq, if_neg h]

/-- Witness for C3 at the concrete codes 0 and -10. -/
theorem C3_lifecycle_ops_success_iff_zero_witness :
    handle_simple_error 0 = Except.ok () ∧
    handle_simple_error (-10) = Except.error (Error.fromCInt (-10)) :=
  ⟨((C3_lifecycle_ops_success_iff_zero.1 0).1).mpr rfl,
   (C3_lifecycle_ops_success_iff_zero.1 (-10)).2 (by decide)⟩

/-- C6: `Lame::new` returns `none` exactly when the backend `lame_init`
returned the null handle; otherwise it returns a context whose stored
handle is the non-null handle the backend produced. -/
theorem C6_new_none_iff_null : ∀ ctx : Nat,
    (Lame.new ctx = none ↔ ctx = 0) ∧
    (ctx ≠ 0 → Lame.new ctx = some ⟨ctx⟩) ∧
    (∀ l : Lame, Lame.new ctx = some l → l.ptr = ctx ∧ l.ptr ≠ 0) := by
  intro ctx
  refine ⟨⟨?_, ?_⟩, ?_, ?_⟩
  · intro h
    by_contra hc
    unfold Lame.new at h
    rw [if_neg hc] at h
    exact Option.noConfusion h
  · rintro rfl
    rfl
  · intro h
    unfold Lame.new
    rw [if_neg h]
  · intro l hl
    by_cases hc : ctx = 0
    · subst hc
      exact absurd hl (by simp [Lame.new])
    · unfold Lame.new at hl
      rw [if_neg hc] at hl
      have h2 : (⟨ctx⟩ : Lame) = l := Option.some.inj hl
      subst h2
      exact ⟨rfl, hc⟩

/-- Witness for C6 at the null handle 0 and the non-null handle 7. -/
theorem C6_new_none_iff_null_witness :
    Lame.new 0 = none ∧ Lame.new 7 = some ⟨7⟩ :=
  ⟨(C6_new_none_iff_null 0).1.mpr rfl, (C6_new_none_iff_null 7).2.1 (by decide)⟩

/-- C1: the status-code match of `Lame::encode` maps -1 to
`OutputBufferTooSmall`, -2 to `NoMem`, -3 to `InitParamsNotCalled`, -4 to
`PsychoAcousticError`, any other negative code to `Unknown` carrying that
code, and every non-negative code to `ok` with that code as the byte count
(never an error); and for in-domain equal-length buffers `encode` returns
exactly that mapping of the backend's return code. -/
theorem C1_encode_error_code_mapping :
    (∀ retn : Int,
      (retn = -1 →
        encode_retn_result retn = Except.error EncodeError.OutputBufferTooSmall) ∧
      (retn = -2 → encode_retn_result retn = Except.error EncodeError.NoMem) ∧
      (retn = -3 →
        encode_retn_result retn = Except.error EncodeError.InitParamsNotCalled) ∧
      (retn = -4 →
        encode_retn_result retn = Except.error EncodeError.PsychoAcousticError) ∧
      (retn < 0 → retn ≠ -1 → retn ≠ -2 → retn ≠ -3 → retn ≠ -4 →
        encode_retn_result retn = Except.error (EncodeError.Unknown retn)) ∧
      (0 ≤ retn → encode_retn_result retn = Except.ok retn.toNat ∧
        ∀ e, encode_retn_result retn ≠ Except.error e)) ∧
    (∀ (enc_fn : Nat → List Int → List Int → Int → Int → Int) (l : Lame)
      (L R : List Int) (B : List Nat),
      L.length = R.length → L.length ≤ cIntMaxNat → B.length ≤ cIntMaxNat →
      Lame.encode enc_fn l L R B =
        PanicOr.value
          (encode_retn_result
            (enc_fn l.ptr L R (L.length : Int) (B.length : Int)))) := by
  constructor
  · intro retn
    refine ⟨?_, ?_, ?_, ?_, ?_, ?_⟩
    · rintro rfl; rfl
    · rintro rfl; rfl
    · rintro rfl; rfl
    · rintro rfl; rfl
    · intro hneg h1 h2 h3 h4
      unfold encode_retn_result
      rw [if_neg h1, if_neg h2, if_neg h3, if_neg h4, if_pos hneg]
    · intro h
      have heq : encode_retn_result retn = Except.ok retn.toNat := by
        unfold encode_retn_result
        rw [if_neg (by omega), if_neg (by omega), if_neg (by omega),
          if_neg (by omega), if_neg (by omega)]
      refine ⟨heq, fun e he => ?_⟩
      rw [heq] at he
      exact Except.noConfusion he
  · intro enc_fn l L R B hlen hL hB
    unfold Lame.encode
    rw [if_neg (fun hc => hc hlen), int_size_of_le _ hL, int_size_of_le _ hB]

/-- Witness for C1 at the concrete codes -1, -5, 417 and a concrete
in-domain encode call. -/
theorem C1_encode_error_code_mapping_witness :
    encode_retn_result (-1) = Except.error EncodeError.OutputBufferTooSmall ∧
    encode_retn_result (-5) = Except.error (EncodeError.Unknown (-5)) ∧
    encode_retn_result 417 = Except.ok 417 ∧
    Lame.encode (fun _ _ _ _ _ => 417) ⟨1⟩ [0] [0] [1, 2, 3] =
      PanicOr.value (encode_retn_result 417) :=
  ⟨(C1_encode_error_code_mapping.1 (-1)).1 rfl,
   (C1_encode_error_code_mapping.1 (-5)).2.2.2.2.1 (by decide) (by decide)
     (by decide) (by decide) (by decide),
   ((C1_encode_error_code_mapping.1 417).2.2.2.2.2 (by decide)).1,
   C1_encode_error_code_mapping.2 (fun _ _ _ _ _ => 417) ⟨1⟩ [0] [0] [1, 2, 3]
     rfl (by decide) (by decide)⟩

/-- C4: when the left and right sample buffers have different lengths,
`encode` panics with the length-mismatch message before consulting the
backend (the outcome is the same for every backend function and handle) and
never returns a typed result; with equal lengths the length-mismatch panic
is unreachable. -/
theorem C4_encode_length_mismatch :
    ∀ (enc_fn enc_fn2 : Nat → List Int → List Int → Int → Int → Int)
      (l l2 : Lame) (L R : List Int) (B : List Nat),
      (L.length ≠ R.length →
        Lame.encode enc_fn l L R B = PanicOr.panic lengthMismatchMsg ∧
        Lame.encode enc_fn l L R B = Lame.encode enc_fn2 l2 L R B ∧
        ∀ r, Lame.encode enc_fn l L R B ≠ PanicOr.value r) ∧
      (L.length = R.length →
        Lame.encode enc_fn l L R B ≠ PanicOr.panic lengthMismatchMsg) := by
  intro enc_fn enc_fn2 l l2 L R B
  constructor
  · intro h
    have he : Lame.encode enc_fn l L R B = PanicOr.panic lengthMismatchMsg := by
      unfold Lame.encode
      rw [if_pos h]
    have he2 : Lame.encode enc_fn2 l2 L R B = PanicOr.panic lengthMismatchMsg := by
      unfold Lame.encode
      rw [if_pos h]
    refine ⟨he, by rw [he, he2], fun r hr => ?_⟩
    rw [he] at hr
    exact PanicOr.noConfusion hr
  · intro hlen
    unfold Lame.encode
    rw [if_neg (fun hc => hc hlen)]
    cases h1 : int_size L.length with
    | none =>
      intro hc
      injection hc with h
      exact absurd h (by decide)
    | some n =>
      cases h2 : int_size B.length with
      | none =>
        intro hc
        injection hc with h
        exact absurd h (by decide)
      | some cap => exact fun hc => PanicOr.noConfusion hc

/-- Witness for C4 at a concrete mismatched call and a concrete matched
call. -/
theorem C4_encode_length_mismatch_witness :
    Lame.encode (fun _ _ _ _ _ => 0) ⟨1⟩ [0] [] [] =
      PanicOr.panic lengthMismatchMsg ∧
    Lame.encode (fun _ _ _ _ _ => 0) ⟨1⟩ [0] [0] [] ≠
      PanicOr.panic lengthMismatchMsg :=
  ⟨((C4_encode_length_mismatch (fun _ _ _ _ _ => 0) (fun _ _ _ _ _ => 0)
      ⟨1⟩ ⟨1⟩ [0] [] []).1 (by decide)).1,
   (C4_encode_length_mismatch (fun _ _ _ _ _ => 0) (fun _ _ _ _ _ => 0)
      ⟨1⟩ ⟨1⟩ [0] [0] []).2 rfl⟩

/-- C5: `int_size` panics exactly on lengths above `c_int::MAX` and returns
the length unchanged otherwise; `encode` panics with the overflow message
when the input-sample length or the output-buffer length exceeds
`c_int::MAX`, and with both lengths in domain no panic at all is
reachable. -/
theorem C5_encode_oversize_panics :
    (∀ sz : Nat, cIntMaxNat < sz → int_size sz = none) ∧
    (∀ sz : Nat, sz ≤ cIntMaxNat → int_size sz = some (sz : Int)) ∧
    (∀ (enc_fn : Nat → List Int → List Int → Int → Int → Int) (l : Lame)
      (L R : List Int) (B : List Nat),
      L.length = R.length → cIntMaxNat < L.length →
      Lame.encode enc_fn l L R B = PanicOr.panic intOverflowMsg) ∧
    (∀ (enc_fn : Nat → List Int → List Int → Int → Int → Int) (l : Lame)
      (L R : List Int) (B : List Nat),
      L.length = R.length → cIntMaxNat < B.length →
      Lame.encode enc_fn l L R B = PanicOr.panic intOverflowMsg) ∧
    (∀ (enc_fn : Nat → List Int → List Int → Int → Int → Int) (l : Lame)
      (L R : List Int) (B : List Nat),
      L.length = R.length → L.length ≤ cIntMaxNat → B.length ≤ cIntMaxNat →
      ∀ msg, Lame.encode enc_fn l L R B ≠ PanicOr.panic msg) := by
  refine ⟨int_size_of_gt, int_size_of_le, ?_, ?_, ?_⟩
  · intro enc_fn l L R B hlen hL
    unfold Lame.encode
    rw [if_neg (fun hc => hc hlen), int_size_of_gt _ hL]
  · intro enc_fn l L R B hlen hB
    unfold Lame.encode
    rw [if_neg (fun hc => hc hlen)]
    by_cases hL : L.length ≤ cIntMaxNat
    · rw [int_size_of_le _ hL, int_size_of_gt _ hB]
    · rw [int_size_of_gt _ (by omega)]
  · intro enc_fn l L R B hlen hL hB msg
    unfold Lame.encode
    rw [if_neg (fun hc => hc hlen), int_size_of_le _ hL, int_size_of_le _ hB]
    exact fun hc => PanicOr.noConfusion hc

/-- Witness for C5: a length just above `c_int::MAX` panics (shown on
`int_size` and on a concrete oversized `encode` call built with
`List.replicate`), an in-domain length converts unchanged, and a concrete
in-domain call cannot panic. -/
theorem C5_encode_oversize_panics_witness :
    int_size 2147483648 = none ∧
    int_size 1152 = some 1152 ∧
    Lame.encode (fun _ _ _ _ _ => 0) ⟨1⟩ (List.replicate 2147483648 0)
      (List.replicate 2147483648 0) [] = PanicOr.panic intOverflowMsg ∧
    Lame.encode (fun _ _ _ _ _ => 0) ⟨1⟩ [0] [0] (List.replicate 2147483648 37) =
      PanicOr.panic intOverflowMsg ∧
    Lame.encode (fun _ _ _ _ _ => 0) ⟨1⟩ [0] [0] [37] ≠
      PanicOr.panic intOverflowMsg :=
  ⟨C5_encode_oversize_panics.1 2147483648 (by decide),
   C5_encode_oversize_panics.2.1 1152 (by decide),
   C5_encode_oversize_panics.2.2.1 (fun _ _ _ _ _ => 0) ⟨1⟩
     (List.replicate 2147483648 0) (List.replicate 2147483648 0) [] rfl
     (by rw [List.length_replicate]; norm_num [cIntMaxNat]),
   C5_encode_oversize_panics.2.2.2.1 (fun _ _ _ _ _ => 0) ⟨1⟩ [0] [0]
     (List.replicate 2147483648 37) rfl
     (by rw [List.length_replicate]; norm_num [cIntMaxNat]),
   C5_encode_oversize_panics.2.2.2.2 (fun _ _ _ _ _ => 0) ⟨1⟩ [0] [0] [37]
     rfl (by decide) (by decide) intOverflowMsg⟩

/-- C7: `Drop::drop` invokes the backend `lame_close` on the context's
handle exactly once (the trace of close calls is exactly the singleton of
the handle), surfaces only the unit value to the caller, and its outcome is
identical for every possible backend close behaviour. -/
theorem C7_drop_closes_once :
    ∀ (close_fn close_fn2 : Nat → Int) (l : Lame),
      (Lame.drop close_fn l).2 = [l.ptr] ∧
      ((Lame.drop close_fn l).2).count l.ptr = 1 ∧
      (Lame.drop close_fn l).1 = () ∧
      Lame.drop close_fn l = Lame.drop close_fn2 l := by
  intro f g l
  refine ⟨rfl, ?_, rfl, rfl⟩
  simp [Lame.drop]

/-- C8: `set_quality` forwards every `u8` value (including values above 9)
to the backend exactly as given — the `u8 as c_int` cast is the identity on
the value, there is no clamping or pre-validation — and the caller sees
exactly the mapped backend status. -/
theorem C8_set_quality_forwards_exact :
    ∀ (set_fn : Nat → Int → Int) (l : Lame) (q : Fin 256),
      u8_as_cint q = (q.val : Int) ∧
      Lame.set_quality set_fn l q =
        (handle_simple_error (set_fn l.ptr (q.val : Int)), l) ∧
      ((Lame.set_quality set_fn l q).1 = Except.ok () ↔
        set_fn l.ptr (q.val : Int) = 0) ∧
      (set_fn l.ptr (q.val : Int) ≠ 0 →
        (Lame.set_quality set_fn l q).1 =
          Except.error (Error.fromCInt (set_fn l.ptr (q.val : Int)))) := by
  intro f l q
  refine ⟨rfl, rfl, ?_, ?_⟩
  · show handle_simple_error (f l.ptr (q.val : Int)) = Except.ok () ↔ _
    rw [handle_simple_error_eq]
    constructor
    · intro h
      by_contra hc
      rw [if_neg hc] at h
      exact Except.noConfusion h
    · intro h
      rw [if_pos h]
  · intro h
    show handle_simple_error (f l.ptr (q.val : Int)) = _
    rw [handle_simple_error_eq, if_neg h]

/-- Witness for C8 at the out-of-range quality 255 against a backend that
rejects every value above 9. -/
theorem C8_set_quality_forwards_exact_witness :
    (Lame.set_quality (fun _ v => if v ≤ 9 then 0 else -1) ⟨1⟩ 255).1 =
      Except.error
        (Error.fromCInt ((fun _ v => if v ≤ 9 then (0 : Int) else -1) 1
          ((255 : Fin 256).val : Int))) :=
  (C8_set_quality_forwards_exact (fun _ v => if v ≤ 9 then 0 else -1) ⟨1⟩
    255).2.2.2 (by decide)

/-- C9: every parameter setter and `init_params` leave the wrapper state
unchanged (the handle after the call is the handle before it), and the
`Lame` context has no field besides the handle: two contexts with equal
handles are equal. -/
theorem C9_setters_preserve_state :
    (∀ (set_fn : Nat → Int → Int) (l : Lame) (x : Fin 4294967296),
      (Lame.set_sample_rate set_fn l x).2 = l) ∧
    (∀ (set_fn : Nat → Int → Int) (l : Lame) (x : Fin 256),
      (Lame.set_channels set_fn l x).2 = l ∧
      (Lame.set_quality set_fn l x).2 = l) ∧
    (∀ (set_fn : Nat → Int → Int) (l : Lame) (x : Int),
      (Lame.set_kilobitrate set_fn l x).2 = l) ∧
    (∀ (commit_fn : Nat → Int) (l : Lame),
      (Lame.init_params commit_fn l).2 = l) ∧
    (∀ a b : Lame, a.ptr = b.ptr → a = b) := by
  refine ⟨fun _ _ _ => rfl, fun _ _ _ => ⟨rfl, rfl⟩, fun _ _ _ => rfl,
    fun _ _ => rfl, ?_⟩
  intro a b h
  cases a
  cases b
  simp_all

/-- Witness for C9: a concrete failing setter call leaves the handle
untouched, and equal handles give equal contexts. -/
theorem C9_setters_preserve_state_witness :
    (Lame.set_quality (fun _ _ => -1) ⟨2⟩ 5).2 = ⟨2⟩ ∧ (⟨3⟩ : Lame) = ⟨3⟩ :=
  ⟨(C9_setters_preserve_state.2.1 (fun _ _ => -1) ⟨2⟩ 5).2,
   C9_setters_preserve_state.2.2.2.2 ⟨3⟩ ⟨3⟩ rfl⟩

/-- C10: the getters narrow the backend `c_int` by wrapping casts:
`channels` and `quality` return the backend value reduced modulo `2^8`,
`sample_rate` returns it reduced modulo `2^32`; the casts are total (always
a value below the type's bound, never an error or panic). -/
theorem C10_getters_wrapping_cast :
    (∀ (get_fn : Nat → Int) (l : Lame),
      Lame.channels get_fn l = ((get_fn l.ptr) % 256).toNat ∧
      Lame.quality get_fn l = ((get_fn l.ptr) % 256).toNat ∧
      Lame.sample_rate get_fn l = ((get_fn l.ptr) % 4294967296).toNat) ∧
    (∀ v : Int,
      cint_as_u8 v = (v % 256).toNat ∧ cint_as_u8 v < 256 ∧
      cint_as_u32 v = (v % 4294967296).toNat ∧ cint_as_u32 v < 4294967296) := by
  have key : ∀ v : Int, cint_as_u8 v = (v % 256).toNat := by
    intro v
    have h1 : v % 4294967296 % 256 = v % 256 :=
      Int.emod_emod_of_dvd v (by norm_num)
    unfold cint_as_u8
    omega
  constructor
  · intro get_fn l
    exact ⟨key (get_fn l.ptr), key (get_fn l.ptr), rfl⟩
  · intro v
    refine ⟨key v, ?_, rfl, ?_⟩
    · unfold cint_as_u8
      omega
    · unfold cint_as_u32
      have h0 : v % 4294967296 < 4294967296 :=
        Int.emod_lt_of_pos v (by norm_num)
      omega

end LameRs
